/-
Verification of the CV Studio résumé builder (app.py) against its
natural-language specification.

The file shallowly embeds the pure parts of app.py:
  * `smart_expand`      — the local "AI" bullet generator (app.py lines 34-75);
  * `pil_to_datauri`    — photo-to-data-URI conversion (lines 78-89), with the
                          PIL decoding step abstracted as a decoder parameter;
  * `buildDocx`         — the "Build & Show DOCX" handler (lines 349-423),
                          modelled as a list of document blocks;
  * `buildExportHtml`   — the "Build & Download HTML preview" handler
                          (lines 438-461);
  * `render_preview_html` — the live-preview renderer (lines 469-544).

Python's `random.choice` / `random.shuffle` are modelled by a `Rand`
structure: an index stream for the successive `choice` draws and a
permutation for `shuffle`.  Python truthiness of a string is emptiness,
truthiness of a list is non-emptiness.  `html.escape` is embedded
character by character (its default quote=True behaviour).
-/
import Mathlib

set_option maxRecDepth 10000

namespace CvApp

/-! ### Python string primitives

Implemented structurally on `List Char` so that every definition reduces
in the kernel (Lean's own `String.trim`, `String.map`, … recurse on byte
positions and do not). -/

/-- Python truthiness of a string: non-empty. -/
def pyTruthy (s : String) : Bool :=
  !s.data.isEmpty

/-- `html.escape` on a single character (quote=True: also `"` and `'`). -/
def escapeChar (c : Char) : String :=
  if c = '&' then "&amp;"
  else if c = '<' then "&lt;"
  else if c = '>' then "&gt;"
  else if c = '"' then "&quot;"
  else if c = Char.ofNat 39 then "&#x27;"
  else ⟨[c]⟩

/-- Concatenation of a list of strings. -/
def strConcat : List String → String
  | [] => ""
  | s :: rest => s ++ strConcat rest

/-- Python `html.escape` (imported as `escape` in app.py line 18). -/
def escape (s : String) : String :=
  strConcat (s.data.map escapeChar)

/-- Auxiliary scan for Python substring containment. -/
def containsAux (nd : List Char) : List Char → Bool
  | [] => nd.isEmpty
  | c :: rest => nd.isPrefixOf (c :: rest) || containsAux nd rest

/-- Python `needle in hay` on strings. -/
def pyIn (needle hay : String) : Bool :=
  containsAux needle.data hay.data

/-- Python `s.strip()` on the character list. -/
def pyStripChars (l : List Char) : List Char :=
  ((l.dropWhile Char.isWhitespace).reverse.dropWhile Char.isWhitespace).reverse

/-- Python `s.strip()`. -/
def pyStrip (s : String) : String :=
  ⟨pyStripChars s.data⟩

/-- Python `s.lower()` (ASCII case mapping, as used on role keywords). -/
def pyLower (s : String) : String :=
  ⟨s.data.map Char.toLower⟩

/-- Worker for Python `s.split()`: `cur` is the current word, reversed. -/
def splitWsAux : List Char → List Char → List String
  | [], cur => if cur.isEmpty then [] else [⟨cur.reverse⟩]
  | c :: rest, cur =>
    if c.isWhitespace then
      if cur.isEmpty then splitWsAux rest [] else ⟨cur.reverse⟩ :: splitWsAux rest []
    else splitWsAux rest (c :: cur)

/-- Python `s.split()` — split on whitespace runs, dropping empty pieces. -/
def pySplitWs (s : String) : List String :=
  splitWsAux s.data []

/-- Python `sep.join(parts)`. -/
def pyJoin (sep : String) : List String → String
  | [] => ""
  | [x] => x
  | x :: y :: rest => x ++ sep ++ pyJoin sep (y :: rest)

/-- `" ".join(description.strip().split())` of app.py line 42. -/
def normWs (s : String) : String :=
  pyJoin " " (pySplitWs s)

/-- Python `s.endswith(".")`: the last character is a period. -/
def endsDot (s : String) : Bool :=
  s.data.getLast? == some '.'

/-! ### Randomness model

`random.choice` draws are numbered by call site and read off an index
stream; `random.shuffle` is an arbitrary permutation of its input. -/

structure Rand where
  idx : Nat → Nat
  shuffle : List String → List String
  shuffle_perm : ∀ l, List.Perm (shuffle l) l

/-- `random.choice(l)` for the `k`-th draw of the generator. -/
def rchoice {α : Type} [Inhabited α] (r : Rand) (k : Nat) (l : List α) : α :=
  l.getD (r.idx k % l.length) default

/-- A fixed generator (first element every time, identity shuffle). -/
def rand0 : Rand :=
  { idx := fun _ => 0, shuffle := fun l => l, shuffle_perm := fun l => List.Perm.refl l }

/-! ### smart_expand (app.py lines 25-75) -/

def ACTION_VERBS : List String :=
  ["Led", "Designed", "Implemented", "Spearheaded", "Managed",
   "Optimized", "Increased", "Reduced", "Improved", "Delivered",
   "Built", "Coordinated", "Developed", "Negotiated", "Streamlined",
   "Drove", "Facilitated", "Executed", "Mentored", "Launched"]

def METRICS : List String :=
  ["revenue", "efficiency", "customer satisfaction", "cost", "uptime",
   "retention", "conversion rate"]

/-- The literal list `[8, 10, 12, 15, 20, 25, 30]` of line 47. -/
def PCT_VALUES : List Nat := [8, 10, 12, 15, 20, 25, 30]

/-- Loop body of lines 63-70: take candidates until `n` bullets are
collected, trimming each and forcing a trailing period. -/
def snapPeriod (c : String) : String :=
  let s := pyStrip c
  if endsDot s then s else s ++ "."

def collectBullets (n : Nat) : List String → List String → List String
  | [], acc => acc
  | c :: rest, acc =>
    if n ≤ acc.length then acc
    else collectBullets n rest (acc ++ [snapPeriod c])

/-- Padding loop of lines 72-74, run for `fuel = n - len(bullets)` steps;
`base` numbers the successive `random.choice(ACTION_VERBS)` draws. -/
def padLoop (r : Rand) (desc : String) : Nat → Nat → List String → List String
  | _, 0, acc => acc
  | base, Nat.succ k, acc =>
      padLoop r desc (base + 1) k (acc ++ [rchoice r base ACTION_VERBS ++ " " ++ desc ++ "."])

/-- `any(x in role_l for x in keys)` of lines 55/57/59. -/
def roleHasAny (role_l : String) (keys : List String) : Bool :=
  keys.any (fun k => pyIn k role_l)

/-- `smart_expand(description, role, company, n)` of app.py lines 34-75. -/
def smart_expand (r : Rand) (description role company : String) (n : Nat) : List String :=
  if !(pyTruthy description && pyTruthy (pyStrip description)) then []
  else
    let desc := normWs description
    let metric := rchoice r 0 METRICS
    let value := rchoice r 1 PCT_VALUES
    let b1 :=
      if pyTruthy company then rchoice r 2 ACTION_VERBS ++ " " ++ desc ++ " at " ++ company ++ "."
      else rchoice r 2 ACTION_VERBS ++ " " ++ desc ++ "."
    let b2 := rchoice r 3 ACTION_VERBS ++ " " ++ desc ++ ", achieving ~" ++ toString value ++
      "% improvement in " ++ metric ++ "."
    let b3 := rchoice r 4 ACTION_VERBS ++ " " ++ desc ++
      " by focusing on stakeholder needs and measurable KPIs."
    let role_l := pyLower role
    let cands0 := [b2, b1, b3]
    let cands1 :=
      if roleHasAny role_l ["sales", "account", "business"] then
        cands0 ++ ["Built strong client relationships and expanded accounts through consultative selling."]
      else cands0
    let cands2 :=
      if roleHasAny role_l ["engineer", "developer", "dev", "software"] then
        cands1 ++ ["Improved system reliability and deployment velocity through automation and testing."]
      else cands1
    let cands3 :=
      if roleHasAny role_l ["product", "pm", "product manager"] then
        cands2 ++ ["Prioritised features and worked cross-functionally to launch product improvements."]
      else cands2
    let shuffled := r.shuffle cands3
    let bullets := collectBullets n shuffled []
    let final := if bullets.length < n then padLoop r desc 5 (n - bullets.length) bullets else bullets
    final.take n

/-! ### Data model (session state, app.py lines 95-126) -/

structure Profile where
  name : String
  title : String
  email : String
  phone : String
  location : String
  linkedin : String
  portfolio : String
  summary : String
deriving DecidableEq

structure Experience where
  role : String
  company : String
  period : String
  description : String
  bullets : List String
deriving DecidableEq

structure Education where
  degree : String
  school : String
  year : String
deriving DecidableEq

structure Design where
  style : String
  accent : String
  include_photo : Bool
deriving DecidableEq

/-- An uploaded photo file: its raw bytes (opaque to the app logic). -/
structure PhotoFile where
  bytes : List Nat
deriving DecidableEq

structure AppState where
  profile : Profile
  experience_list : List Experience
  education_list : List Education
  skills : List String
  photo_file : Option PhotoFile
  design : Design
deriving DecidableEq

/-- The state with the uploaded photo removed. -/
def stripPhoto (st : AppState) : AppState :=
  { st with photo_file := none }

/-- `pil_to_datauri` (app.py lines 78-89).  The PIL decode/encode chain
(`Image.open(...).convert("RGB")`, PNG re-encode, base64) is abstracted as
`dec`; `dec f = none` models the `except Exception: return None` branch
for a file PIL cannot decode. -/
def pil_to_datauri (dec : PhotoFile → Option String) : Option PhotoFile → Option String
  | none => none
  | some f => dec f

/-! ### DOCX export (app.py lines 349-423)

A built document is modelled as the list of blocks appended to it, in
order.  Successive runs of one paragraph are concatenated into its text.
`photoOk` models `doc.add_picture` succeeding (line 386: its failure is
swallowed by `except Exception: pass`); `bulletStyleOk` models the
`style="List Bullet"` paragraph style being available (lines 411-415). -/

inductive DocxBlock where
  | heading (text : String) (level : Nat)
  | para (text : String)
  | bulletPara (text : String)
  | picture
deriving DecidableEq, Repr

/-- Contact line parts (app.py lines 362-372): each field is appended
only when truthy. -/
def contactParts (p : Profile) : List String :=
  (if pyTruthy p.email then [p.email] else []) ++
  (if pyTruthy p.phone then [p.phone] else []) ++
  (if pyTruthy p.location then [p.location] else []) ++
  (if pyTruthy p.linkedin then [p.linkedin] else []) ++
  (if pyTruthy p.portfolio then [p.portfolio] else [])

/-- One education paragraph (lines 395-399), runs concatenated. -/
def eduBlock (ed : Education) : DocxBlock :=
  .para (ed.degree ++ " — " ++ ed.school ++ (if pyTruthy ed.year then " (" ++ ed.year ++ ")" else ""))

/-- One experience entry (lines 405-415): header paragraph then bullets;
with the list style unavailable each bullet falls back to a plain
paragraph prefixed with a bullet glyph. -/
def expBlocks (bulletStyleOk : Bool) (ex : Experience) : List DocxBlock :=
  .para (ex.role ++ " — " ++ ex.company ++ (if pyTruthy ex.period then "  (" ++ ex.period ++ ")" else "")) ::
  ex.bullets.map (fun b => if bulletStyleOk then .bulletPara b else .para ("• " ++ b))

/-- The "Build & Show DOCX" handler (lines 349-423). -/
def buildDocx (st : AppState) (photoOk bulletStyleOk : Bool) : List DocxBlock :=
  [.heading (if pyTruthy st.profile.name then st.profile.name else "Unnamed") 0] ++
  (if pyTruthy st.profile.title then [.para st.profile.title] else []) ++
  (if (contactParts st.profile).isEmpty then []
   else [.para (pyJoin " | " (contactParts st.profile))]) ++
  (if pyTruthy st.profile.summary then [.para st.profile.summary] else []) ++
  (if st.design.include_photo && st.photo_file.isSome && photoOk then [.picture] else []) ++
  (if st.education_list.isEmpty then []
   else .heading "Education" 1 :: st.education_list.map eduBlock) ++
  (if st.experience_list.isEmpty then []
   else .heading "Experience" 1 :: (st.experience_list.map (expBlocks bulletStyleOk)).flatten) ++
  (if st.skills.isEmpty then [] else [.heading "Skills" 1, .para (pyJoin ", " st.skills)])

/-! ### HTML export (app.py lines 438-461) -/

/-- Python `s.replace(old, new)` for a one-character `old`. -/
def pyReplaceChar (old : Char) (new : String) (s : String) : String :=
  strConcat (s.data.map (fun c => if c = old then new else ⟨[c]⟩))

/-- One experience entry of the HTML export (lines 447-452). -/
def exportExpItem (ex : Experience) : String :=
  "<h3>" ++ escape ex.role ++ " — " ++ escape ex.company ++ "</h3>" ++ "<ul>" ++
  strConcat (ex.bullets.map (fun b => "<li>" ++ escape b ++ "</li>")) ++ "</ul>"

/-- One education entry of the HTML export (line 456). -/
def exportEduItem (ed : Education) : String :=
  "<div><b>" ++ escape ed.degree ++ "</b> — " ++ escape ed.school ++ " (" ++ escape ed.year ++ ")</div>"

/-- The "Build & Download HTML preview" handler (lines 438-461). -/
def buildExportHtml (st : AppState) : String :=
  let name := escape st.profile.name
  let title := escape st.profile.title
  let summary := pyReplaceChar '\n' "<br>" (escape st.profile.summary)
  "<!doctype html><html><head><meta charset=\"utf-8\"><title>" ++ name ++
    " — CV</title></head><body>\n            <h1>" ++ name ++ "</h1><h3>" ++ title ++
    "</h3><p>" ++ summary ++ "</p>" ++
  (if st.experience_list.isEmpty then ""
   else "<h2>Experience</h2>" ++ strConcat (st.experience_list.map exportExpItem)) ++
  (if st.education_list.isEmpty then ""
   else "<h2>Education</h2>" ++ strConcat (st.education_list.map exportEduItem)) ++
  (if st.skills.isEmpty then ""
   else "<h2>Skills</h2><div>" ++ escape (pyJoin ", " st.skills) ++ "</div>") ++
  "</body></html>"

/-! ### Live preview (app.py lines 469-544)

The preview context built at lines 547-557, and `render_preview_html`.
Braces of the CSS are written `\x7b`/`\x7d` and single quotes `\x27`. -/

structure Ctx where
  name : String
  title : String
  summary : String
  email : String
  phone : String
  experience : List Experience
  education : List Education
  skills : List String
  photo : Option String

/-- The `preview_ctx` dictionary (lines 547-557). -/
def mkPreviewCtx (dec : PhotoFile → Option String) (st : AppState) : Ctx :=
  { name := st.profile.name
    title := st.profile.title
    summary := st.profile.summary
    email := st.profile.email
    phone := st.profile.phone
    experience := st.experience_list
    education := st.education_list
    skills := st.skills
    photo :=
      if st.photo_file.isSome && st.design.include_photo then
        pil_to_datauri dec st.photo_file
      else none }

/-- CSS/head of the Modern template (lines 475-489); `accent` is
interpolated twice. -/
def modernHead (accent : String) : String :=
  "\n            <html><head><meta charset=\x27utf-8\x27>\n            <style>\n            body\x7bfont-family: -apple-system, BlinkMacSystemFont, \x27Segoe UI\x27, Roboto, \x27Helvetica Neue\x27, Arial; color:#1b2b3a; background:transparent;\x7d\n            .card\x7bbackground:white;padding:18px;border-radius:10px;box-shadow:0 8px 24px rgba(12,30,60,0.08);width: 380px;\x7d\n            .header\x7bdisplay:flex;gap:12px;align-items:center;border-bottom:3px solid #f3f6fb;padding-bottom:10px;margin-bottom:10px\x7d\n            .name\x7bfont-weight:700;font-size:20px;color:" ++
  accent ++
  "\x7d\n            .title\x7bfont-size:13px;color:#334155;margin-top:3px\x7d\n            .meta\x7bfont-size:12px;color:#64748b;margin-top:8px\x7d\n            .section-title\x7bfont-weight:700;margin-top:12px;color:#0f172a;font-size:12px;border-bottom:1px solid #eef2ff;padding-bottom:4px\x7d\n            .skill\x7bdisplay:inline-block;padding:6px 8px;border-radius:10px;background:#f0faff;margin:4px 4px 0 0;font-size:12px;color:" ++
  accent ++
  "\x7d\n            ul\x7bmargin:6px 0 0 18px;padding:0\x7d\n            li\x7bmargin-bottom:6px;font-size:13px;\x7d\n            .photo\x7bwidth:64px;height:64px;border-radius:8px;object-fit:cover\x7d\n            </style></head><body>\n"

/-- Header card of the Modern template (lines 490-501).  NOTE: faithful
to the source, `name`, `title`, `email`, `phone` and `summary` are
interpolated raw (not through `escape`), and the email·phone meta line
always carries its " · " separator. -/
def modernHeader (ctx : Ctx) : String :=
  "            <div class=\x27card\x27>\n              <div class=\x27header\x27>\n                " ++
  (match ctx.photo with
   | some p => "<img src=\x27" ++ p ++ "\x27 class=\x27photo\x27/>"
   | none => "") ++
  "\n                <div>\n                  <div class=\x27name\x27>" ++ ctx.name ++
  "</div>\n                  <div class=\x27title\x27>" ++ ctx.title ++
  "</div>\n                  <div class=\x27meta\x27>" ++ ctx.email ++ " · " ++ ctx.phone ++
  "</div>\n                </div>\n              </div>\n              <div class=\x27summary\x27>" ++
  ctx.summary ++
  "</div>\n              "

/-- One Modern experience entry (lines 503-507). -/
def modernExpItem (ex : Experience) : String :=
  "<div style=\x27margin-top:8px\x27><strong>" ++ escape ex.role ++ "</strong> — " ++
  escape ex.company ++ " <div style=\x27color:#64748b;font-size:12px\x27>" ++ escape ex.period ++
  "</div>" ++ "<ul>" ++
  strConcat (ex.bullets.map (fun b => "<li>" ++ escape b ++ "</li>")) ++
  "</ul></div>"

/-- One Modern education entry (line 510). -/
def modernEduItem (ed : Education) : String :=
  "<div style=\x27margin-top:8px\x27><strong>" ++ escape ed.degree ++ "</strong> — " ++
  escape ed.school ++ " <div style=\x27font-size:12px;color:#64748b\x27>" ++ escape ed.year ++
  "</div></div>"

/-- The Modern-template branch (lines 474-515). -/
def renderModern (accent : String) (ctx : Ctx) : String :=
  modernHead accent ++ modernHeader ctx ++
  "<div class=\x27section-title\x27>Experience</div>\n            " ++
  strConcat (ctx.experience.map modernExpItem) ++
  "<div class=\x27section-title\x27>Education</div>" ++
  strConcat (ctx.education.map modernEduItem) ++
  "<div class=\x27section-title\x27>Skills</div><div>" ++
  strConcat (ctx.skills.map (fun s => "<span class=\x27skill\x27>" ++ escape s ++ "</span>")) ++
  "</div></div></body></html>"

/-- Head of the Classic/Minimal template (lines 518-532). -/
def classicHead (ctx : Ctx) : String :=
  "\n            <html><head><meta charset=\x27utf-8\x27>\n            <style>\n            body\x7bfont-family: \x27Times New Roman\x27, Times, serif; color:#000;\x7d\n            .paper\x7bwidth:380px;padding:16px;background:white;border:1px solid #eee\x7d\n            h1\x7bmargin:0;font-size:20px\x7d\n            h2\x7bmargin:4px 0 8px 0;font-size:13px;color:#333\x7d\n            .muted\x7bcolor:#555;font-size:12px\x7d\n            ul\x7bmargin:6px 0 0 18px;padding:0\x7d\n            li\x7bmargin-bottom:6px;font-size:13px\x7d\n            </style></head><body><div class=\x27paper\x27>\n            <h1>" ++
  escape ctx.name ++ "</h1><div class=\x27muted\x27>" ++ escape ctx.title ++
  "</div>\n            <div style=\x27margin-top:8px\x27>" ++ escape ctx.summary ++
  "</div>\n            "

/-- One Classic experience entry (lines 534-538). -/
def classicExpItem (ex : Experience) : String :=
  "<div><strong>" ++ escape ex.role ++ "</strong> — " ++ escape ex.company ++
  " <div class=\x27muted\x27>" ++ escape ex.period ++ "</div>" ++ "<ul>" ++
  strConcat (ex.bullets.map (fun b => "<li>" ++ escape b ++ "</li>")) ++
  "</ul></div>"

/-- One Classic education entry (line 541). -/
def classicEduItem (ed : Education) : String :=
  "<div><strong>" ++ escape ed.degree ++ "</strong> — " ++ escape ed.school ++ " (" ++
  escape ed.year ++ ")</div>"

/-- The Classic/Minimal branch (lines 516-544), shared by every style
other than "Modern Color". -/
def renderClassic (ctx : Ctx) : String :=
  classicHead ctx ++
  "<h2>Experience</h2>\n            " ++
  strConcat (ctx.experience.map classicExpItem) ++
  "<h2>Education</h2>" ++
  strConcat (ctx.education.map classicEduItem) ++
  "<h2>Skills</h2><div>" ++ escape (pyJoin ", " ctx.skills) ++ "</div>" ++
  "</div></body></html>"

/-- `render_preview_html` (lines 469-544): dispatch on the configured
style. -/
def render_preview_html (design : Design) (ctx : Ctx) : String :=
  if design.style = "Modern Color" then renderModern design.accent ctx
  else renderClassic ctx

/-! ### Spec-side section decompositions (for the section-order claim)

These definitions follow the spec's ordering words — header/identity
block (with summary), then experience, then education, then skills —
and are compared with the renderers translated from the source. -/

def specExportIdentity (st : AppState) : String :=
  "<!doctype html><html><head><meta charset=\"utf-8\"><title>" ++ escape st.profile.name ++
  " — CV</title></head><body>\n            <h1>" ++ escape st.profile.name ++ "</h1><h3>" ++
  escape st.profile.title ++ "</h3><p>" ++
  pyReplaceChar '\n' "<br>" (escape st.profile.summary) ++ "</p>"

def specExportExperience (st : AppState) : String :=
  if st.experience_list.isEmpty then ""
  else "<h2>Experience</h2>" ++ strConcat (st.experience_list.map exportExpItem)

def specExportEducation (st : AppState) : String :=
  if st.education_list.isEmpty then ""
  else "<h2>Education</h2>" ++ strConcat (st.education_list.map exportEduItem)

def specExportSkills (st : AppState) : String :=
  if st.skills.isEmpty then ""
  else "<h2>Skills</h2><div>" ++ escape (pyJoin ", " st.skills) ++ "</div>"

/-- The export page as the spec orders it: identity/summary block, then
experience, then education, then skills, then the closing tags. -/
def specOrderExportHtml (st : AppState) : String :=
  strConcat
    [specExportIdentity st, specExportExperience st, specExportEducation st,
     specExportSkills st, "</body></html>"]

/-- The preview page as the spec orders it, for both template branches. -/
def specOrderPreviewHtml (design : Design) (ctx : Ctx) : String :=
  if design.style = "Modern Color" then
    strConcat
      [modernHead design.accent ++ modernHeader ctx,
       "<div class=\x27section-title\x27>Experience</div>\n            " ++
         strConcat (ctx.experience.map modernExpItem),
       "<div class=\x27section-title\x27>Education</div>" ++
         strConcat (ctx.education.map modernEduItem),
       "<div class=\x27section-title\x27>Skills</div><div>" ++
         strConcat (ctx.skills.map (fun s => "<span class=\x27skill\x27>" ++ escape s ++ "</span>")) ++
         "</div>",
       "</div></body></html>"]
  else
    strConcat
      [classicHead ctx,
       "<h2>Experience</h2>\n            " ++ strConcat (ctx.experience.map classicExpItem),
       "<h2>Education</h2>" ++ strConcat (ctx.education.map classicEduItem),
       "<h2>Skills</h2><div>" ++ escape (pyJoin ", " ctx.skills) ++ "</div>",
       "</div></body></html>"]

/-- Is a document block a section heading? -/
def isHeading : DocxBlock → Bool
  | .heading _ _ => true
  | _ => false

/-! ### Concrete sample data (for witnesses and counterexamples) -/

def sampleProfile : Profile :=
  { name := "Jane Doe", title := "Senior Technical Specialist", email := "jane@example.com",
    phone := "", location := "", linkedin := "", portfolio := "",
    summary := "Results-driven professional." }

def sampleExperience : Experience :=
  { role := "Sales Representative", company := "Intertek Geronimo Oil and Gas",
    period := "2022 — Present", description := "Managed key accounts",
    bullets := ["Improved computation speed by 10%.", "Managed key accounts."] }

def sampleEducation : Education :=
  { degree := "B.Sc. Mechanical Engineering", school := "University of Example", year := "2018" }

def sampleDesign : Design :=
  { style := "Modern Color", accent := "#0b6efd", include_photo := true }

def sampleState : AppState :=
  { profile := sampleProfile, experience_list := [sampleExperience],
    education_list := [sampleEducation],
    skills := ["Client Relationships", "Inspection", "Asset Integrity"],
    photo_file := none, design := sampleDesign }

/-- The sample state carrying an uploaded photo. -/
def sampleStateWithPhoto : AppState :=
  { sampleState with photo_file := some { bytes := [137, 80, 78, 71] } }

/-- The sample state with a different design and photo but the same
résumé record (profile, experience, education, skills). -/
def sampleStateOtherDesign : AppState :=
  { sampleState with
      photo_file := some { bytes := [1, 2, 3] },
      design := { style := "Classic B/W", accent := "#000000", include_photo := false } }

/-- A preview context whose name field carries markup. -/
def ctxXss : Ctx :=
  { name := "<script>alert(1)</script>", title := "Dev", summary := "Sum", email := "e@x",
    phone := "+1", experience := [], education := [], skills := [], photo := none }

/-- A preview context with an email but an empty phone. -/
def ctxNoPhone : Ctx :=
  { name := "Jane Doe", title := "Dev", summary := "Sum", email := "jane@example.com",
    phone := "", experience := [], education := [], skills := [], photo := none }

/-- The always-failing PIL decoder: every uploaded file raises inside
`Image.open(...)`, so `pil_to_datauri` returns `None`. -/
def decFail : PhotoFile → Option String := fun _ => none

/-! ## Helper lemmas -/

theorem padLoop_length (r : Rand) (d : String) : ∀ (k base : Nat) (acc : List String),
    (padLoop r d base k acc).length = acc.length + k := by
  intro k
  induction k with
  | zero => intro base acc; simp [padLoop]
  | succ m ih => intro base acc; simp [padLoop, ih]; omega

theorem collect_mem (n : Nat) : ∀ (cs acc : List String) (b : String),
    b ∈ collectBullets n cs acc → b ∈ acc ∨ ∃ c, b = snapPeriod c := by
  intro cs
  induction cs with
  | nil => intro acc b hb; exact Or.inl hb
  | cons c rest ih =>
    intro acc b hb
    rw [collectBullets] at hb
    split at hb
    · exact Or.inl hb
    · rcases ih _ _ hb with h | h
      · rcases List.mem_append.mp h with h | h
        · exact Or.inl h
        · exact Or.inr ⟨c, by simpa using h⟩
      · exact Or.inr h

theorem pad_mem (r : Rand) (d : String) : ∀ (k base : Nat) (acc : List String) (b : String),
    b ∈ padLoop r d base k acc → b ∈ acc ∨ ∃ v, b = v ++ " " ++ d ++ "." := by
  intro k
  induction k with
  | zero => intro base acc b hb; exact Or.inl (by simpa [padLoop] using hb)
  | succ m ih =>
    intro base acc b hb
    rw [padLoop] at hb
    rcases ih _ _ _ hb with h | h
    · rcases List.mem_append.mp h with h | h
      · exact Or.inl h
      · exact Or.inr ⟨rchoice r base ACTION_VERBS, by simpa using h⟩
    · exact Or.inr h

theorem endsDot_append_dot (s : String) : endsDot (s ++ ".") = true := by
  have h : (s ++ ".").data = s.data ++ ['.'] := by
    simp only [String.data_append]
  rw [endsDot, h, List.getLast?_concat]
  rfl

theorem ne_empty_append_dot (s : String) : s ++ "." ≠ "" := by
  intro he
  have := congrArg String.data he
  simp [String.data_append] at this

theorem snapPeriod_ok (c : String) : snapPeriod c ≠ "" ∧ endsDot (snapPeriod c) = true := by
  unfold snapPeriod
  by_cases h : endsDot (pyStrip c) = true
  · rw [if_pos h]
    refine ⟨?_, h⟩
    intro he
    rw [he] at h
    simp [endsDot] at h
  · rw [if_neg h]
    exact ⟨ne_empty_append_dot _, endsDot_append_dot _⟩

theorem pad_item_ok (v d : String) :
    v ++ " " ++ d ++ "." ≠ "" ∧ endsDot (v ++ " " ++ d ++ ".") = true := by
  constructor
  · intro he
    have := congrArg String.data he
    simp [String.data_append] at this
  · have : v ++ " " ++ d ++ "." = (v ++ " " ++ d) ++ "." := by
      simp [String.append_assoc]
    rw [this]
    exact endsDot_append_dot _

theorem expand_core (r : Rand) (desc : String) (n : Nat) (_hn : 1 ≤ n) (cs : List String) :
    ((if (collectBullets n cs []).length < n then
        padLoop r desc 5 (n - (collectBullets n cs []).length) (collectBullets n cs [])
      else collectBullets n cs []).take n).length = n ∧
    ∀ b ∈ (if (collectBullets n cs []).length < n then
             padLoop r desc 5 (n - (collectBullets n cs []).length) (collectBullets n cs [])
           else collectBullets n cs []).take n, b ≠ "" ∧ endsDot b = true := by
  set bullets := collectBullets n cs [] with hb
  by_cases h : bullets.length < n
  · rw [if_pos h]
    constructor
    · rw [List.length_take, padLoop_length]
      omega
    · intro b hmem
      have hfin := (List.take_sublist n _).mem hmem
      rcases pad_mem r desc _ _ _ _ hfin with hin | ⟨v, rfl⟩
      · rcases collect_mem n cs [] b hin with h0 | ⟨c, rfl⟩
        · simp at h0
        · exact snapPeriod_ok c
      · exact pad_item_ok _ _
  · rw [if_neg h]
    constructor
    · rw [List.length_take]
      omega
    · intro b hmem
      have hfin := (List.take_sublist n _).mem hmem
      rcases collect_mem n cs [] b hfin with h0 | ⟨c, rfl⟩
      · simp at h0
      · exact snapPeriod_ok c

theorem pyTruthy_of_strip {s : String} (h : pyTruthy (pyStrip s) = true) :
    pyTruthy s = true := by
  rcases hs : s.data with _ | ⟨c, rest⟩
  · exfalso
    have hempty : pyStrip s = "" := by
      show String.mk (pyStripChars s.data) = ""
      rw [hs]
      rfl
    rw [hempty] at h
    simp [pyTruthy] at h
  · simp [pyTruthy, hs]

/-! ## Claim theorems -/

/-- C3: for every non-empty (non-blank) description, every role and
company, every randomness source, and every count `n ≥ 1`,
`smart_expand` returns exactly `n` bullets, each non-empty and ending in
a period. -/
theorem c3_smart_expand_count_nonempty_period (r : Rand)
    (description role company : String) (n : Nat)
    (hd : pyTruthy (pyStrip description) = true) (hn : 1 ≤ n) :
    (smart_expand r description role company n).length = n ∧
    ∀ b ∈ smart_expand r description role company n, b ≠ "" ∧ endsDot b = true := by
  have hT : pyTruthy description = true := pyTruthy_of_strip hd
  have hc : (!(pyTruthy description && pyTruthy (pyStrip description))) = false := by
    rw [hT, hd]
    rfl
  unfold smart_expand
  rw [hc]
  rw [if_neg (by decide : ¬(false = true))]
  exact expand_core r (normWs description) n hn _

theorem c3_witness :
    (pyTruthy (pyStrip "built dashboards") = true ∧ 1 ≤ 2) ∧
    ((smart_expand rand0 "built dashboards" "Analyst" "Acme" 2).length = 2 ∧
     ∀ b ∈ smart_expand rand0 "built dashboards" "Analyst" "Acme" 2,
       b ≠ "" ∧ endsDot b = true) :=
  ⟨⟨by decide, by decide⟩,
   c3_smart_expand_count_nonempty_period rand0 "built dashboards" "Analyst" "Acme" 2
     (by decide) (by decide)⟩

/-- C5: an empty description short-circuits `smart_expand` to the empty
list, for every count, role, company and randomness source. -/
theorem c5_empty_description_returns_nil (r : Rand) (role company : String) (n : Nat) :
    smart_expand r "" role company n = [] :=
  rfl

/-- C9: role-keyword matching in `smart_expand` is case-insensitive —
two roles with the same lower-casing (in particular "Sales Manager" and
"SALES MANAGER") produce identical bullet candidates and output. -/
theorem c9_role_keywords_case_insensitive (role1 role2 : String)
    (h : pyLower role1 = pyLower role2) (r : Rand) (description company : String) (n : Nat) :
    smart_expand r description role1 company n = smart_expand r description role2 company n := by
  simp only [smart_expand, h]

theorem c9_witness :
    pyLower "Sales Manager" = pyLower "SALES MANAGER" ∧
    smart_expand rand0 "closed deals" "Sales Manager" "Acme" 4 =
      smart_expand rand0 "closed deals" "SALES MANAGER" "Acme" 4 :=
  ⟨by decide,
   c9_role_keywords_case_insensitive "Sales Manager" "SALES MANAGER" (by decide)
     rand0 "closed deals" "Acme" 4⟩

/-- C10: every style other than "Modern Color" takes the serif "paper"
branch of the preview renderer, so "Minimal One-Page" and "Classic B/W"
produce identical preview output for the same record. -/
theorem c10_non_modern_styles_identical (s1 s2 accent : String) (ip : Bool) (ctx : Ctx)
    (h1 : s1 ≠ "Modern Color") (h2 : s2 ≠ "Modern Color") :
    render_preview_html ⟨s1, accent, ip⟩ ctx = render_preview_html ⟨s2, accent, ip⟩ ctx := by
  simp only [render_preview_html, if_neg h1, if_neg h2]

theorem c10_witness :
    ("Classic B/W" ≠ "Modern Color" ∧ "Minimal One-Page" ≠ "Modern Color") ∧
    render_preview_html ⟨"Classic B/W", "#0b6efd", true⟩ ctxNoPhone =
      render_preview_html ⟨"Minimal One-Page", "#0b6efd", true⟩ ctxNoPhone :=
  ⟨⟨by decide, by decide⟩,
   c10_non_modern_styles_identical "Classic B/W" "Minimal One-Page" "#0b6efd" true ctxNoPhone
     (by decide) (by decide)⟩

/-- C6: the export-HTML artifact is a pure function of the résumé record
(profile, experience, education, skills): two builds from equal records —
in particular two builds from the same record, whatever the ambient RNG
did in between — yield byte-identical output. -/
theorem c6_export_html_deterministic_in_record (st1 st2 : AppState)
    (h1 : st1.profile = st2.profile) (h2 : st1.experience_list = st2.experience_list)
    (h3 : st1.education_list = st2.education_list) (h4 : st1.skills = st2.skills) :
    buildExportHtml st1 = buildExportHtml st2 := by
  simp only [buildExportHtml, h1, h2, h3, h4]

theorem c6_witness :
    (sampleState.profile = sampleStateOtherDesign.profile ∧
     sampleState.experience_list = sampleStateOtherDesign.experience_list ∧
     sampleState.education_list = sampleStateOtherDesign.education_list ∧
     sampleState.skills = sampleStateOtherDesign.skills) ∧
    buildExportHtml sampleState = buildExportHtml sampleStateOtherDesign :=
  ⟨⟨rfl, rfl, rfl, rfl⟩,
   c6_export_html_deterministic_in_record sampleState sampleStateOtherDesign rfl rfl rfl rfl⟩

/-- C7: when the photo bytes cannot be decoded (the PIL decoder fails on
every file), both renderers silently omit the photo and produce exactly
the document they would produce with no photo at all — the malformed
image never aborts or truncates the render. -/
theorem c7_bad_photo_omitted_rest_rendered (st : AppState) (bOk : Bool)
    (dec : PhotoFile → Option String) (hdec : ∀ f, dec f = none) :
    render_preview_html st.design (mkPreviewCtx dec st) =
      render_preview_html st.design (mkPreviewCtx dec (stripPhoto st)) ∧
    buildDocx st false bOk = buildDocx (stripPhoto st) true bOk := by
  have hphoto : pil_to_datauri dec st.photo_file = none := by
    cases st.photo_file with
    | none => rfl
    | some f => exact hdec f
  have hctx : mkPreviewCtx dec st = mkPreviewCtx dec (stripPhoto st) := by
    simp [mkPreviewCtx, stripPhoto, hphoto]
  constructor
  · rw [hctx]
  · simp [buildDocx, stripPhoto]

theorem c7_witness :
    render_preview_html sampleStateWithPhoto.design (mkPreviewCtx decFail sampleStateWithPhoto) =
      render_preview_html sampleStateWithPhoto.design
        (mkPreviewCtx decFail (stripPhoto sampleStateWithPhoto)) ∧
    buildDocx sampleStateWithPhoto false true =
      buildDocx (stripPhoto sampleStateWithPhoto) true true :=
  c7_bad_photo_omitted_rest_rendered sampleStateWithPhoto true decFail (fun _ => rfl)

/-- C8: with the "List Bullet" paragraph style unavailable, every bullet
of every experience entry still appears in the DOCX export as a plain
paragraph prefixed with the bullet glyph "• ". -/
theorem c8_bullet_fallback_glyph (st : AppState) (pOk : Bool) (ex : Experience) (b : String)
    (hex : ex ∈ st.experience_list) (hb : b ∈ ex.bullets) :
    DocxBlock.para ("• " ++ b) ∈ buildDocx st pOk false := by
  have hne : st.experience_list.isEmpty = false := by
    simp [List.isEmpty_eq_false, List.ne_nil_of_mem hex]
  have hmem : DocxBlock.para ("• " ++ b) ∈
      (st.experience_list.map (expBlocks false)).flatten := by
    rw [List.mem_flatten]
    refine ⟨expBlocks false ex, List.mem_map_of_mem _ hex, ?_⟩
    rw [expBlocks]
    exact List.mem_cons_of_mem _ (by
      refine List.mem_map.mpr ⟨b, hb, ?_⟩
      simp)
  unfold buildDocx
  rw [hne]
  simp only [Bool.false_eq_true, if_false]
  refine List.mem_append_left _ (List.mem_append_right _ ?_)
  exact List.mem_cons_of_mem _ hmem

theorem c8_witness :
    (sampleExperience ∈ sampleState.experience_list ∧
     "Improved computation speed by 10%." ∈ sampleExperience.bullets) ∧
    DocxBlock.para ("• " ++ "Improved computation speed by 10%.") ∈
      buildDocx sampleState true false :=
  ⟨⟨by decide, by decide⟩,
   c8_bullet_fallback_glyph sampleState true sampleExperience "Improved computation speed by 10%."
     (by decide) (by decide)⟩

theorem filter_isHeading_edu (l : List Education) :
    (l.map eduBlock).filter isHeading = [] := by
  induction l with
  | nil => rfl
  | cons a t ih => simp [eduBlock, isHeading, List.filter_cons, ih]

theorem filter_isHeading_bullets (bOk : Bool) (bs : List String) :
    (bs.map (fun b => if bOk then DocxBlock.bulletPara b else DocxBlock.para ("• " ++ b))).filter
      isHeading = [] := by
  induction bs with
  | nil => rfl
  | cons a t ih => cases bOk <;> simp [isHeading, List.filter_cons, ih]

theorem filter_isHeading_exp (bOk : Bool) (l : List Experience) :
    ((l.map (expBlocks bOk)).flatten).filter isHeading = [] := by
  induction l with
  | nil => rfl
  | cons a t ih =>
    simp [List.filter_append, ih, expBlocks, isHeading, List.filter_cons,
      filter_isHeading_bullets]

/-- C1 (code bug): in the Modern-Color preview branch the name (and
title, email, phone, summary) is interpolated without `escape`, so a
name containing markup appears as live markup in the preview HTML — the
raw `<script>` tag is a substring of the output and its escaped form is
not. -/
theorem c1_modern_preview_unescaped_fields :
    pyIn "<script>alert(1)</script>"
      (render_preview_html { style := "Modern Color", accent := "#0b6efd", include_photo := true }
        ctxXss) = true ∧
    pyIn "&lt;script&gt;"
      (render_preview_html { style := "Modern Color", accent := "#0b6efd", include_photo := true }
        ctxXss) = false := by
  constructor
  · decide
  · decide

/-- C2 (counterexample): in the DOCX export built from the sample
record, the "Education" heading appears strictly before the
"Experience" heading, contradicting the claimed fixed order
header, summary, experience, education, skills for every output
format. -/
theorem c2_docx_education_precedes_experience :
    (buildDocx sampleState true true).findIdx (fun x => x == DocxBlock.heading "Education" 1) <
      (buildDocx sampleState true true).findIdx (fun x => x == DocxBlock.heading "Experience" 1) ∧
    (buildDocx sampleState true true).findIdx (fun x => x == DocxBlock.heading "Experience" 1) <
      (buildDocx sampleState true true).length := by
  constructor
  · decide
  · decide

/-- C2 (amended): the preview-HTML (both template branches) and the
export-HTML do render header/identity (with summary), then experience,
then education, then skills, in that order; the DOCX export instead
renders its headings in the order name, Education, Experience, Skills. -/
theorem c2_section_order_amended (st : AppState) (pOk bOk : Bool)
    (design : Design) (ctx : Ctx) :
    (buildDocx st pOk bOk).filter isHeading =
      DocxBlock.heading (if pyTruthy st.profile.name then st.profile.name else "Unnamed") 0 ::
      ((if st.education_list.isEmpty then [] else [DocxBlock.heading "Education" 1]) ++
       (if st.experience_list.isEmpty then [] else [DocxBlock.heading "Experience" 1]) ++
       (if st.skills.isEmpty then [] else [DocxBlock.heading "Skills" 1])) ∧
    buildExportHtml st = specOrderExportHtml st ∧
    render_preview_html design ctx = specOrderPreviewHtml design ctx := by
  refine ⟨?_, ?_, ?_⟩
  · unfold buildDocx
    simp only [List.filter_append, List.filter_cons, List.filter_nil,
      apply_ite (List.filter isHeading), isHeading, filter_isHeading_edu, filter_isHeading_exp]
    simp [List.filter_cons, filter_isHeading_edu, filter_isHeading_exp, isHeading]
  · unfold buildExportHtml specOrderExportHtml specExportIdentity specExportExperience
      specExportEducation specExportSkills
    simp only [strConcat]
    simp [String.append_assoc, String.append_empty]
  · unfold render_preview_html specOrderPreviewHtml
    split
    · unfold renderModern
      rw [show ("</div></div></body></html>" : String) = "</div>" ++ "</div></body></html>"
        from rfl]
      simp only [strConcat]
      simp [String.append_assoc, String.append_empty]
    · unfold renderClassic
      simp only [strConcat]
      simp [String.append_assoc, String.append_empty]

/-- C4 (counterexample): with a non-empty email and an empty phone, the
Modern preview's contact/meta line still carries its " · " separator,
leaving it dangling before the closing tag. -/
theorem c4_modern_meta_dangling_separator :
    pyTruthy ctxNoPhone.phone = false ∧
    pyIn " · </div>"
      (render_preview_html { style := "Modern Color", accent := "#0b6efd", include_photo := true }
        ctxNoPhone) = true := by
  constructor
  · decide
  · decide

/-- C4 (amended): the DOCX export's contact line keeps exactly the
non-empty contact fields, in order, so an empty phone (or any other
empty field) contributes no segment and no dangling " | " separator;
the Modern preview's email·phone meta line, by contrast, always renders
its separator. -/
theorem c4_contact_parts_omit_empty (p : Profile) :
    contactParts p =
      [p.email, p.phone, p.location, p.linkedin, p.portfolio].filter pyTruthy := by
  cases h1 : pyTruthy p.email <;> cases h2 : pyTruthy p.phone <;>
    cases h3 : pyTruthy p.location <;> cases h4 : pyTruthy p.linkedin <;>
    cases h5 : pyTruthy p.portfolio <;>
  simp [contactParts, List.filter_cons, h1, h2, h3, h4, h5]

end CvApp
